import Mathlib

/-!
Verification development for the growi-mcp-server repository.

The TypeScript sources are shallowly embedded: JavaScript numbers are
modelled as an inductive type over exact rationals together with NaN and
the two infinities (double-precision rounding is not modelled; all
arithmetic performed by the embedded code is exact for the integer
magnitudes that actually occur, far below 2^53), JavaScript exceptions
are modelled as `Except String`, and the injected GROWI client together
with the primary HTTP path are modelled as explicit environment records
so that every tool function becomes a total Lean function of its
arguments and its environment.

Rational arithmetic is routed through `mkRat`-based helper functions
(`qadd`, `qmul`, `qneg`) because the library's own `Rat` operations are
irreducible and would block evaluation by `decide`; bridge lemmas equate
the helpers with the ordinary operations for abstract reasoning.
-/

namespace Growi

/-- Reducible rational addition (equal to `+` by `qadd_eq`). -/
def qadd (a b : ℚ) : ℚ := mkRat (a.num * b.den + b.num * a.den) (a.den * b.den)

/-- Reducible rational multiplication (equal to `*` by `qmul_eq`). -/
def qmul (a b : ℚ) : ℚ := mkRat (a.num * b.num) (a.den * b.den)

/-- Reducible rational negation (equal to `-·` by `qneg_eq`). -/
def qneg (a : ℚ) : ℚ := mkRat (-a.num) a.den

/-- Reducible strict-order test on rationals (equal to `decide (a < b)`
by `qltb_eq`). -/
def qltb (a b : ℚ) : Bool := a.num * b.den < b.num * a.den

/-- Reducible embedding of a natural number into the rationals. -/
def natQ (n : ℕ) : ℚ := mkRat n 1

/-- Model of a JavaScript number: NaN, +Infinity, -Infinity, or an exact
rational value.  Double rounding is not modelled; every numeric literal
and arithmetic step reachable in the embedded code is exact. -/
inductive JSNum
  | nan
  | inf
  | ninf
  | num (q : ℚ)
deriving DecidableEq

namespace JSNum

/-- JavaScript `isNaN` on an already-numeric value. -/
def isNaN : JSNum → Bool
  | .nan => true
  | _ => false

/-- JavaScript `<` on numbers: any comparison involving NaN is false. -/
def jlt : JSNum → JSNum → Bool
  | .nan, _ => false
  | _, .nan => false
  | .ninf, .ninf => false
  | .ninf, _ => true
  | _, .ninf => false
  | .inf, _ => false
  | .num _, .inf => true
  | .num a, .num b => qltb a b

/-- JavaScript unary negation. -/
def neg : JSNum → JSNum
  | .nan => .nan
  | .inf => .ninf
  | .ninf => .inf
  | .num q => .num (qneg q)

/-- JavaScript `+` on numbers. -/
def add : JSNum → JSNum → JSNum
  | .nan, _ => .nan
  | _, .nan => .nan
  | .inf, .ninf => .nan
  | .ninf, .inf => .nan
  | .inf, _ => .inf
  | _, .inf => .inf
  | .ninf, _ => .ninf
  | _, .ninf => .ninf
  | .num a, .num b => .num (qadd a b)

/-- JavaScript `-` on numbers. -/
def sub (a b : JSNum) : JSNum := a.add b.neg

/-- JavaScript `*` on numbers (`Infinity * 0` is NaN). -/
def mul : JSNum → JSNum → JSNum
  | .nan, _ => .nan
  | _, .nan => .nan
  | .inf, .inf => .inf
  | .inf, .ninf => .ninf
  | .ninf, .inf => .ninf
  | .ninf, .ninf => .inf
  | .inf, .num b => if b = 0 then .nan else if qltb 0 b then .inf else .ninf
  | .num a, .inf => if a = 0 then .nan else if qltb 0 a then .inf else .ninf
  | .ninf, .num b => if b = 0 then .nan else if qltb 0 b then .ninf else .inf
  | .num a, .ninf => if a = 0 then .nan else if qltb 0 a then .ninf else .inf
  | .num a, .num b => .num (qmul a b)

/-- JavaScript `Math.min` on two numbers: NaN-propagating, otherwise the
smaller argument. -/
def jmin (a b : JSNum) : JSNum :=
  if a.isNaN || b.isNaN then .nan
  else if jlt a b then a else b

end JSNum

/-- Decimal digit characters, by code point (48 to 57). -/
def isDigitCh (c : Char) : Bool := 48 ≤ c.toNat && c.toNat ≤ 57

/-- Accumulator loop behind `digitsVal`. -/
def digitsValAux (acc : Nat) : List Char → Nat
  | [] => acc
  | c :: cs => digitsValAux (acc * 10 + (c.toNat - 48)) cs

/-- Numeric value of a list of decimal digit characters (base 10). -/
def digitsVal (l : List Char) : Nat := digitsValAux 0 l

/-- Split a character list into its longest decimal-digit-only front part
and the remainder. -/
def takeDigits : List Char → List Char × List Char
  | [] => ([], [])
  | c :: cs =>
    match isDigitCh c with
    | true =>
      let pr := takeDigits cs
      (c :: pr.1, pr.2)
    | false => ([], c :: cs)

/-- JavaScript whitespace characters recognised by numeric conversion. -/
def isWsCh (c : Char) : Bool :=
  c = ' ' || c = '\t' || c = '\n' || c = '\r' || c = '\x0b' || c = '\x0c'

/-- Value of a digit character in bases up to 16, by code point: digits,
then lowercase a-f (code points 97 to 102), then uppercase A-F (65 to
70). -/
def hexDigitVal (c : Char) : Option Nat :=
  let n := c.toNat
  if 48 ≤ n && n ≤ 57 then some (n - 48)
  else if 97 ≤ n && n ≤ 102 then some (n - 87)
  else if 65 ≤ n && n ≤ 70 then some (n - 55)
  else none

/-- Value of a character-list in a given radix, when every character is a
digit of that radix and the list is nonempty. -/
def radixVal (radix : Nat) (l : List Char) : Option Nat :=
  match l with
  | [] => none
  | _ =>
    l.foldl
      (fun acc c =>
        match acc, hexDigitVal c with
        | some a, some d => if d < radix then some (a * radix + d) else none
        | _, _ => none)
      (some 0)

/-- Exponent part of a decimal numeric literal: empty means exponent 0;
otherwise `e`/`E`, an optional sign, and a nonempty all-digit tail. -/
def parseExpPart : List Char → Option ℤ
  | [] => some 0
  | c :: cs =>
    if c = 'e' || c = 'E' then
      match cs with
      | '+' :: r =>
        let (d, rest) := takeDigits r
        if d.isEmpty || !rest.isEmpty then none else some (digitsVal d : ℤ)
      | '-' :: r =>
        let (d, rest) := takeDigits r
        if d.isEmpty || !rest.isEmpty then none else some (-(digitsVal d : ℤ))
      | r =>
        let (d, rest) := takeDigits r
        if d.isEmpty || !rest.isEmpty then none else some (digitsVal d : ℤ)
    else none

/-- Scale a rational by a signed power of ten. -/
def mulPow10 (q : ℚ) (e : ℤ) : ℚ :=
  if 0 ≤ e then qmul q (natQ (10 ^ e.toNat)) else mkRat q.num (q.den * 10 ^ (-e).toNat)

/-- Full-consumption parse of an unsigned decimal literal
(`digits [. digits] [exponent]`, at least one digit present),
as used by JavaScript `Number(string)`. -/
def parseDecLit (cs : List Char) : Option ℚ :=
  let (ip, r1) := takeDigits cs
  let (fp, r2) :=
    match r1 with
    | '.' :: t => takeDigits t
    | _ => ([], r1)
  if ip.isEmpty && fp.isEmpty then none
  else
    match r1, parseExpPart r2 with
    | '.' :: _, some e =>
      some (mulPow10 (qadd (natQ (digitsVal ip)) (mkRat (digitsVal fp) (10 ^ fp.length))) e)
    | _, some e => some (mulPow10 (natQ (digitsVal ip)) e)
    | _, none => none

/-- JavaScript `Number(string)` conversion: trim whitespace, empty gives
0, then a fully-consumed signed decimal literal, `Infinity`, or an
unsigned radix-prefixed literal (`0x`, `0o`, `0b`); anything else is
NaN. -/
def strToNumber (s : String) : JSNum :=
  let cs := ((s.toList.dropWhile isWsCh).reverse.dropWhile isWsCh).reverse
  match cs with
  | [] => .num 0
  | '+' :: r =>
    if r = "Infinity".toList then .inf
    else match parseDecLit r with
      | some q => .num q
      | none => .nan
  | '-' :: r =>
    if r = "Infinity".toList then .ninf
    else match parseDecLit r with
      | some q => .num (qneg q)
      | none => .nan
  | '0' :: x :: r =>
    if x = 'x' || x = 'X' then
      match radixVal 16 r with
      | some n => .num (natQ n)
      | none => .nan
    else if x = 'o' || x = 'O' then
      match radixVal 8 r with
      | some n => .num (natQ n)
      | none => .nan
    else if x = 'b' || x = 'B' then
      match radixVal 2 r with
      | some n => .num (natQ n)
      | none => .nan
    else
      match parseDecLit cs with
      | some q => .num q
      | none => .nan
  | r =>
    if r = "Infinity".toList then .inf
    else match parseDecLit r with
      | some q => .num q
      | none => .nan

/-- JavaScript `parseInt(s, 10)`: skip leading whitespace, optional sign,
then the longest decimal digit run; NaN if that run is empty.  Parsing
stops at the first non-digit, so a trailing non-numeric tail is
ignored. -/
def parseIntJS (s : String) : JSNum :=
  let cs := s.toList.dropWhile isWsCh
  match cs with
  | '+' :: r =>
    let (d, _) := takeDigits r
    if d.isEmpty then .nan else .num (natQ (digitsVal d))
  | '-' :: r =>
    let (d, _) := takeDigits r
    if d.isEmpty then .nan else .num (qneg (natQ (digitsVal d)))
  | r =>
    let (d, _) := takeDigits r
    if d.isEmpty then .nan else .num (natQ (digitsVal d))

/-- Smallest power of ten (up to 60) whose product with the rational's
denominator clears it, used for finite decimal rendering. -/
def decScale (q : ℚ) : Option Nat :=
  (List.range 61).find? (fun k => q.den ∣ 10 ^ k)

/-- Decimal rendering of a nonnegative rational whose denominator is a
product of twos and fives, matching JavaScript number-to-string output
for the magnitudes reachable in the embedded code (no exponential
notation; values at or above 1e21, where JavaScript switches to
exponential form, do not occur). -/
def renderNonneg (q : ℚ) : String :=
  match decScale q with
  | some 0 => toString q.num.toNat
  | some k =>
    let s := toString (q.num.toNat * (10 ^ k / q.den))
    let s := if s.length ≤ k then String.mk (List.replicate (k + 1 - s.length) '0') ++ s else s
    s.take (s.length - k) ++ "." ++ s.drop (s.length - k)
  | none => toString q.num ++ "/" ++ toString q.den

/-- JavaScript string conversion of a number. -/
def JSNum.render : JSNum → String
  | .nan => "NaN"
  | .inf => "Infinity"
  | .ninf => "-Infinity"
  | .num q => if q.num < 0 then "-" ++ renderNonneg (qneg q) else renderNonneg q

end Growi

namespace Growi

instance {ε α : Type} [DecidableEq ε] [DecidableEq α] : DecidableEq (Except ε α) := fun a b =>
  match a, b with
  | .ok x, .ok y =>
    if h : x = y then .isTrue (by rw [h]) else .isFalse (by intro hc; cases hc; exact h rfl)
  | .error x, .error y =>
    if h : x = y then .isTrue (by rw [h]) else .isFalse (by intro hc; cases hc; exact h rfl)
  | .ok _, .error _ => .isFalse (by intro hc; cases hc)
  | .error _, .ok _ => .isFalse (by intro hc; cases hc)

/-- The `path.startsWith("/")` test, written on the character list so
that it evaluates by reduction. -/
def startsWithSlash (s : String) : Bool :=
  match s.toList with
  | '/' :: _ => true
  | _ => false

/-- A loosely-typed JavaScript argument value as it can appear in a tool
call argument bag (the shapes the zod schemas distinguish). -/
inductive JSVal
  | str (s : String)
  | num (n : JSNum)
  | bool (b : Bool)
deriving DecidableEq

/-- JavaScript truthiness of an argument value. -/
def JSVal.truthy : JSVal → Bool
  | .str s => !(s == "")
  | .num .nan => false
  | .num (.num q) => !(q == 0)
  | .num _ => true
  | .bool b => b

/-- A string-or-number value as accepted by the zod unions. -/
inductive StrOrNum
  | str (s : String)
  | num (n : JSNum)
deriving DecidableEq

/-- ZodError messages are abstracted as a fixed string; no verified
property depends on the exact text zod produces. -/
def zodErrorMessage : String := "Invalid input"

/-- A zod `z.union([z.string(), z.number()]).optional()` field check. -/
def zodStrOrNum : Option JSVal → Except String (Option StrOrNum)
  | none => .ok none
  | some (.str s) => .ok (some (.str s))
  | some (.num n) => .ok (some (.num n))
  | some _ => .error zodErrorMessage

/-- A zod required `z.string()` field check; note that the empty string
passes. -/
def zodString : Option JSVal → Except String String
  | some (.str s) => .ok s
  | _ => .error zodErrorMessage

/-- Raw argument bag for the list-pages tool (fields absent or any
value). -/
structure RawBag where
  path : Option JSVal := none
  limit : Option JSVal := none
  page : Option JSVal := none
deriving DecidableEq

/-- Result of `listPagesSchema.parse`: each present field is a string or
a number. -/
structure ListPagesParsed where
  path : Option StrOrNum
  limit : Option StrOrNum
  page : Option StrOrNum
deriving DecidableEq

/-- The zod object schema of src/src/tools/list-pages.ts lines 11-15:
three optional string-or-number fields. -/
def listPagesSchemaParse (b : RawBag) : Except String ListPagesParsed :=
  match zodStrOrNum b.path with
  | .error e => .error e
  | .ok p =>
    match zodStrOrNum b.limit with
    | .error e => .error e
    | .ok l =>
      match zodStrOrNum b.page with
      | .error e => .error e
      | .ok g => .ok ⟨p, l, g⟩

/-- JavaScript `Number(v)` for a string-or-number value. -/
def jsToNumber : StrOrNum → JSNum
  | .str s => strToNumber s
  | .num n => n

/-- JavaScript `String(v)` for a string-or-number value. -/
def jsToString : StrOrNum → String
  | .str s => s
  | .num n => n.render

/-- The strictly-typed parameter record produced by normalization. -/
structure NormalizedParams where
  path : String
  limit : JSNum
  page : JSNum
deriving DecidableEq

/-- Embedding of `normalizeParams` (src/src/tools/list-pages.ts lines
25-58): a missing bag gives all defaults; otherwise the zod parse may
throw, the path is string-coerced and slash-prefixed, and limit and page
are converted with `Number(...)` — NaN or below-1 values are reset to
the default (100 and 1) and a limit above 1000 is capped at 1000. -/
def normalizeParams : Option RawBag → Except String NormalizedParams
  | none => .ok ⟨"/", .num 100, .num 1⟩
  | some b =>
    match listPagesSchemaParse b with
    | .error e => .error e
    | .ok parsed =>
    let path0 := match parsed.path with
      | some v => jsToString v
      | none => "/"
    let path := if startsWithSlash path0 then path0 else "/" ++ path0
    let limit0 := match parsed.limit with
      | some v => jsToNumber v
      | none => JSNum.num 100
    let limit :=
      if limit0.isNaN || limit0.jlt (.num 1) then JSNum.num 100
      else if (JSNum.num 1000).jlt limit0 then JSNum.num 1000
      else limit0
    let page0 := match parsed.page with
      | some v => jsToNumber v
      | none => JSNum.num 1
    let page :=
      if page0.isNaN || page0.jlt (.num 1) then JSNum.num 1
      else page0
    .ok ⟨path, limit, page⟩

/-- One `{type, text}` content block of the MCP envelope. -/
structure ContentItem where
  type : String
  text : String
deriving DecidableEq

/-- The `{isError?, content}` envelope returned for every tool call.
The tool modules never set `isError`; the absent (hence falsy) field is
modelled as `false`. -/
structure ToolResponse where
  isError : Bool := false
  content : List ContentItem
deriving DecidableEq

/-- JavaScript `x || d` for an optional string (the empty string is
falsy). -/
def orDefault (o : Option String) (d : String) : String :=
  match o with
  | some s => if s = "" then d else s
  | none => d

/-- One "- {path}" line per result, in order; closed form of the text
accumulated by the forEach loops. -/
def pageLines : List String → String
  | [] => ""
  | p :: r => "- " ++ p ++ "\n" ++ pageLines r

/-- Embedding of `formatResultText` (src/src/tools/list-pages.ts lines
60-90).  Pages are represented by their `path` fields, the only part the
formatter reads. -/
def formatResultText (path : String) (pages : Option (List String))
    (total : Option JSNum) (limit page : JSNum) : String :=
  match pages with
  | none => "No pages found under path: " ++ path
  | some ps =>
    if ps.length = 0 then "No pages found under path: " ++ path
    else
      let startIndex := ((page.sub (.num 1)).mul limit).add (.num 1)
      let endIndex := ((startIndex.add (.num (natQ ps.length))).sub (.num 1)).jmin
        (total.getD (.num (natQ ps.length)))
      let text := "Found " ++ toString ps.length ++ " pages under path: " ++ path ++ "\n\n"
      let text := ps.foldl (fun acc p => acc ++ ("- " ++ p ++ "\n")) text
      match total with
      | some t =>
        text ++ ("\nShowing " ++ startIndex.render ++ "-" ++ endIndex.render ++
          " of " ++ t.render ++ " total pages")
      | none => text

/-- JSON payload accepted by the primary branch of listPages
(`data && data.pages` truthy): page paths plus the optional numeric
`totalCount` field. -/
structure PagesPayload where
  pages : List String
  totalCount : Option JSNum
deriving DecidableEq

/-- The `meta` object of a GrowiClient pages response; the tool only
reads its `total` field. -/
structure PagesMeta where
  total : JSNum
deriving DecidableEq

/-- Shape of `client.listPages` results as read by the tool. -/
structure GrowiPagesResponse where
  ok : Bool
  pages : Option (List String)
  meta : Option PagesMeta
  error : Option String
deriving DecidableEq

/-- Environment of one listPages invocation: whether the injected client
carries truthy `baseURL` and `apiToken` fields, the outcome of the
primary native HTTP request (thrown message, or JSON without a truthy
`pages` field, or an accepted payload), and the outcome of the fallback
`client.listPages` call (thrown message or response value). -/
structure ListPagesEnv where
  hasCreds : Bool
  primary : Except String (Option PagesPayload)
  fallback : Except String GrowiPagesResponse

/-- Embedding of the `listPages` tool function (src/src/tools/list-pages.ts
lines 93-191): normalization, the primary native-HTTP branch, the
fallback through `client.listPages` with its ok:false error line, and
the catch-all that converts any thrown error into an in-band error
text. -/
def listPages (env : ListPagesEnv) (params : Option RawBag) : ToolResponse :=
  match normalizeParams params with
  | .error msg => ⟨false, [⟨"text", "Error listing pages: " ++ msg⟩]⟩
  | .ok np =>
    let direct : Option ToolResponse :=
      if env.hasCreds then
        match env.primary with
        | .ok (some payload) =>
          some ⟨false, [⟨"text",
            formatResultText np.path (some payload.pages) payload.totalCount np.limit np.page⟩]⟩
        | _ => none
      else none
    match direct with
    | some r => r
    | none =>
      match env.fallback with
      | .error msg => ⟨false, [⟨"text", "Error listing pages: " ++ msg⟩]⟩
      | .ok resp =>
        if !resp.ok then
          ⟨false, [⟨"text",
            "Error listing pages (path: " ++ np.path ++ ", offset: " ++
              ((np.page.sub (.num 1)).mul np.limit).render ++ "): " ++
              orDefault resp.error "Unknown error"⟩]⟩
        else
          ⟨false, [⟨"text",
            formatResultText np.path resp.pages (Option.map PagesMeta.total resp.meta)
              np.limit np.page⟩]⟩

end Growi

namespace Growi

/-- One entry of the tools/list result (src/src/index.ts lines
244-265). -/
structure ToolDef where
  name : String
  description : String
deriving DecidableEq

/-- The tool catalog returned by the ListTools handler: exactly the two
registered tools. -/
def listToolsResult : List ToolDef :=
  [⟨"mcp_growi_growi_list_pages", "List GROWI pages under a specific path"⟩,
   ⟨"mcp_growi_growi_recently_updated_pages", "Get recently updated GROWI pages"⟩]

/-- Where the CallTool handler's switch sends a request (src/src/index.ts
lines 284-351). -/
inductive DispatchTarget
  | listPagesTool
  | recentlyUpdatedTool
  | unknownTool (name : String)
deriving DecidableEq

/-- The name-matching switch of the CallTool handler. -/
def callToolDispatch (name : String) : DispatchTarget :=
  if name = "mcp_growi_growi_list_pages" then .listPagesTool
  else if name = "mcp_growi_growi_recently_updated_pages" then .recentlyUpdatedTool
  else .unknownTool name

/-- The terminal envelope for an unknown tool name (src/src/index.ts
lines 340-351). -/
def unknownToolResponse (name : String) : ToolResponse :=
  ⟨true, [⟨"text", "Unknown tool: " ++ name⟩]⟩

/-- The envelope produced when an exception reaches the dispatcher
(src/src/index.ts lines 330-338 and 352-364). -/
def dispatcherCatchResponse (msg : String) : ToolResponse :=
  ⟨true, [⟨"text", "Error executing tool: " ++ msg⟩]⟩

/-- Raw argument bag for the search-pages tool. -/
structure SearchBag where
  query : Option JSVal := none
  limit : Option JSVal := none
  offset : Option JSVal := none
deriving DecidableEq

/-- Result of `searchPagesSchema.parse`. -/
structure SearchParsed where
  query : String
  limit : Option StrOrNum
  offset : Option StrOrNum
deriving DecidableEq

/-- searchPagesSchema (src/src/tools/search-pages.ts lines 11-15): query
is a required string — note that the empty string passes `z.string()` —
and limit and offset are optional string-or-number fields. -/
def searchPagesSchemaParse (b : SearchBag) : Except String SearchParsed :=
  match zodString b.query with
  | .error e => .error e
  | .ok q =>
    match zodStrOrNum b.limit with
    | .error e => .error e
    | .ok l =>
      match zodStrOrNum b.offset with
      | .error e => .error e
      | .ok o => .ok ⟨q, l, o⟩

/-- One network operation attempted by searchPages, recorded so that
claims about requests being or not being sent can be stated. -/
inductive SearchCall
  | primary (q : String) (limit offset : JSNum)
  | fallback (q : String) (limit offset : JSNum)
deriving DecidableEq

/-- JSON payload accepted by the primary branch
(`data && Array.isArray(data.data)` truthy), items represented by their
`path` fields. -/
structure SearchPayload where
  data : List String
deriving DecidableEq

/-- Shape of `client.searchPages` results as read by the tool; `data` is
optional because a response without it makes the tool read `.length` of
undefined, which throws. -/
structure SearchResponse where
  ok : Bool
  data : Option (List String)
  error : Option String
deriving DecidableEq

/-- Environment of one searchPages invocation. -/
structure SearchEnv where
  hasCreds : Bool
  primary : Except String (Option SearchPayload)
  fallback : Except String SearchResponse

/-- The TypeError message thrown when `.length` is read off
undefined. -/
def lengthOfUndefinedMsg : String :=
  "Cannot read properties of undefined (reading 'length')"

/-- Fallback half of searchPages (src/src/tools/search-pages.ts lines
115-139 together with the catch-all). -/
def searchPagesFallback (env : SearchEnv) (query : String) (limit offset : JSNum)
    (calls : List SearchCall) : ToolResponse × List SearchCall :=
  let calls := calls ++ [SearchCall.fallback query limit offset]
  match env.fallback with
  | .error msg => (⟨false, [⟨"text", "Error searching pages: " ++ msg⟩]⟩, calls)
  | .ok resp =>
    if !resp.ok then
      (⟨false, [⟨"text", "Error searching pages: " ++ orDefault resp.error "Unknown error"⟩]⟩,
       calls)
    else
      match resp.data with
      | none => (⟨false, [⟨"text", "Error searching pages: " ++ lengthOfUndefinedMsg⟩]⟩, calls)
      | some l =>
        (⟨false, [⟨"text",
          (l.foldl (fun acc p => acc ++ ("- " ++ p ++ "\n"))
            ("Found " ++ toString l.length ++ " pages for query: " ++ query ++ "\n\n"))⟩]⟩,
         calls)

/-- Embedding of the searchPages tool (src/src/tools/search-pages.ts
lines 76-140), paired with the trace of the network operations it
attempted. -/
def searchPages (env : SearchEnv) (bag : SearchBag) : ToolResponse × List SearchCall :=
  match searchPagesSchemaParse bag with
  | .error msg => (⟨false, [⟨"text", "Error searching pages: " ++ msg⟩]⟩, [])
  | .ok p =>
    let query := p.query
    let limit0 := match p.limit with
      | some v => jsToNumber v
      | none => JSNum.num 20
    let limit := if limit0.isNaN || limit0.jlt (.num 1) then JSNum.num 20 else limit0
    let offset0 := match p.offset with
      | some v => jsToNumber v
      | none => JSNum.num 0
    let offset := if offset0.isNaN || offset0.jlt (.num 0) then JSNum.num 0 else offset0
    if env.hasCreds then
      match env.primary with
      | .ok (some payload) =>
        (⟨false, [⟨"text",
          (payload.data.foldl (fun acc p => acc ++ ("- " ++ p ++ "\n"))
            ("Found " ++ toString payload.data.length ++ " pages for query: " ++ query ++
              "\n\n"))⟩]⟩,
         [SearchCall.primary query limit offset])
      | _ => searchPagesFallback env query limit offset [SearchCall.primary query limit offset]
    else
      searchPagesFallback env query limit offset []

/-- Argument bag for the recently-updated-pages tool, typed as the
TypeScript signature declares it (optional string-or-number fields; this
tool never runs a zod parse). -/
structure RecentBag where
  limit : Option StrOrNum := none
  offset : Option StrOrNum := none
deriving DecidableEq

/-- JSON payload accepted by the primary branch of
recentlyUpdatedPages; `totalCount` is `some` exactly when the JSON field
is a number (`typeof data.totalCount === 'number'`). -/
structure RecentPayload where
  pages : List String
  totalCount : Option JSNum
deriving DecidableEq

/-- The `meta` object of a recently-updated client response. -/
structure RecentMeta where
  total : JSNum
  offset : JSNum
deriving DecidableEq

/-- Shape of `client.getRecentlyUpdatedPages` results as read by the
tool. -/
structure RecentResponse where
  ok : Bool
  pages : Option (List String)
  meta : Option RecentMeta
  error : Option String
deriving DecidableEq

/-- Environment of one recentlyUpdatedPages invocation. -/
structure RecentEnv where
  hasCreds : Bool
  primary : Except String (Option RecentPayload)
  fallback : Except String RecentResponse

/-- Embedding of the recentlyUpdatedPages tool (the canonical
recently-updated-pages module): parseInt-based normalization with
defaults 20 and 0, a primary branch with its own formatting, the
fallback through `client.getRecentlyUpdatedPages`, and the catch-all. -/
def recentlyUpdatedPages (env : RecentEnv) (params : Option RecentBag) : ToolResponse :=
  let _limit :=
    match params with
    | none => JSNum.num 20
    | some b =>
      match b.limit with
      | none => JSNum.num 20
      | some v =>
        let l := match v with
          | .str s => parseIntJS s
          | .num n => n
        if l.isNaN || l.jlt (.num 1) then JSNum.num 20 else l
  let offset :=
    match params with
    | none => JSNum.num 0
    | some b =>
      match b.offset with
      | none => JSNum.num 0
      | some v =>
        let o := match v with
          | .str s => parseIntJS s
          | .num n => n
        if o.isNaN || o.jlt (.num 0) then JSNum.num 0 else o
  let direct : Option ToolResponse :=
    if env.hasCreds then
      match env.primary with
      | .ok (some payload) =>
        some
          (if payload.pages.length = 0 then
            ⟨false, [⟨"text", "No recently updated pages found"⟩]⟩
          else
            let text := "Found " ++ toString payload.pages.length ++
              " recently updated pages\n\n"
            let text := payload.pages.foldl (fun acc p => acc ++ ("- " ++ p ++ "\n")) text
            let text := text ++ ("\nShowing " ++ (offset.add (.num 1)).render ++ "-" ++
              (offset.add (.num (natQ payload.pages.length))).render)
            let text := match payload.totalCount with
              | some t => text ++ (" of " ++ t.render ++ " total pages")
              | none => text
            ⟨false, [⟨"text", text⟩]⟩)
      | _ => none
    else none
  match direct with
  | some r => r
  | none =>
    match env.fallback with
    | .error msg =>
      ⟨false, [⟨"text", "Error listing recently updated pages: " ++ msg⟩]⟩
    | .ok resp =>
      if !resp.ok then
        ⟨false, [⟨"text",
          "Error listing recently updated pages: " ++ orDefault resp.error "Unknown error"⟩]⟩
      else
        match resp.pages with
        | none => ⟨false, [⟨"text", "No recently updated pages found"⟩]⟩
        | some ps =>
          if ps.length = 0 then ⟨false, [⟨"text", "No recently updated pages found"⟩]⟩
          else
            let text := "Found " ++ toString ps.length ++ " recently updated pages\n\n"
            let text := ps.foldl (fun acc p => acc ++ ("- " ++ p ++ "\n")) text
            let text := match resp.meta with
              | some m => text ++ ("\nShowing " ++ (m.offset.add (.num 1)).render ++ "-" ++
                  (m.offset.add (.num (natQ ps.length))).render ++
                  (" of " ++ m.total.render ++ " total pages"))
              | none => text
            ⟨false, [⟨"text", text⟩]⟩

/-- Argument bag for the single-required-path tools (get page, page
exists). -/
structure PageBag where
  path : Option JSVal := none
deriving DecidableEq

/-- A page record as read by getPage: its `path` and its optional
`revision.body` (absent when `revision?.body` is undefined). -/
structure GPage where
  path : String
  body : Option String
deriving DecidableEq

/-- Shape of `client.getPage` results as read by the tool; `page` is
optional because an ok response without it makes the tool read `.path`
of undefined, which throws. -/
structure GetPageResponse where
  ok : Bool
  page : Option GPage
  error : Option String
deriving DecidableEq

/-- Environment of one getPage invocation. -/
structure GetPageEnv where
  hasCreds : Bool
  primary : Except String (Option GPage)
  fallback : Except String GetPageResponse

/-- The TypeError message thrown when `.path` is read off undefined. -/
def pathOfUndefinedMsg : String :=
  "Cannot read properties of undefined (reading 'path')"

/-- Header-plus-body text built by getPage for a page record: the body
is appended only when `revision?.body` is truthy, so a missing or empty
body leaves just the header; a present body is appended verbatim with no
truncation. -/
def pageText (p : GPage) : String :=
  let text := "Page: " ++ p.path ++ "\n\n"
  match p.body with
  | some b => if b = "" then text else text ++ b
  | none => text

/-- Embedding of the getPage tool (src/unnamed/part_004 lines 16-97):
zod parse of the required path, slash normalization, the primary
native-HTTP branch, the fallback through `client.getPage`, and the
catch-all. -/
def getPage (env : GetPageEnv) (params : PageBag) : ToolResponse :=
  match zodString params.path with
  | .error msg => ⟨false, [⟨"text", "Error getting page: " ++ msg⟩]⟩
  | .ok s =>
    let _path := if startsWithSlash s then s else "/" ++ s
    let direct : Option ToolResponse :=
      if env.hasCreds then
        match env.primary with
        | .ok (some pg) => some ⟨false, [⟨"text", pageText pg⟩]⟩
        | _ => none
      else none
    match direct with
    | some r => r
    | none =>
      match env.fallback with
      | .error msg => ⟨false, [⟨"text", "Error getting page: " ++ msg⟩]⟩
      | .ok resp =>
        if !resp.ok then
          ⟨false, [⟨"text", "Error getting page: " ++ orDefault resp.error "Unknown error"⟩]⟩
        else
          match resp.page with
          | none => ⟨false, [⟨"text", "Error getting page: " ++ pathOfUndefinedMsg⟩]⟩
          | some pg => ⟨false, [⟨"text", pageText pg⟩]⟩

/-- Raw JSON payload of the page-exist endpoint as inspected by the two
pageExists generations: the `ok` and `exist` fields, when present. -/
structure ExistsPayload where
  okField : Option JSVal := none
  existField : Option JSVal := none
deriving DecidableEq

/-- Shape of `client.pageExists` results as read by the tool
(`exists'` models the response's `exists` field, absent read as
falsy). -/
structure ExistsResponse where
  ok : Bool
  exists' : Bool
  error : Option String
deriving DecidableEq

/-- Environment of one pageExists invocation. -/
structure ExistsEnv where
  hasCreds : Bool
  primary : Except String (Option ExistsPayload)
  fallback : Except String ExistsResponse

/-- Embedding of pageExists, first generation in
src/src/tools/page-exists.ts (lines 74-124): the primary JSON is used
only when its `ok` field is of boolean type. -/
def pageExists (env : ExistsEnv) (params : PageBag) : ToolResponse :=
  match zodString params.path with
  | .error msg => ⟨false, [⟨"text", "Error checking page: " ++ msg⟩]⟩
  | .ok s =>
    let path := if startsWithSlash s then s else "/" ++ s
    let direct : Option ToolResponse :=
      if env.hasCreds then
        match env.primary with
        | .ok (some pl) =>
          match pl.okField with
          | some (.bool b) =>
            some ⟨false, [⟨"text",
              if b then "Page exists: " ++ path else "Page not found: " ++ path⟩]⟩
          | _ => none
        | _ => none
      else none
    match direct with
    | some r => r
    | none =>
      match env.fallback with
      | .error msg => ⟨false, [⟨"text", "Error checking page: " ++ msg⟩]⟩
      | .ok resp =>
        if !resp.ok then
          ⟨false, [⟨"text", "Error checking page: " ++ orDefault resp.error "Unknown error"⟩]⟩
        else
          ⟨false, [⟨"text",
            if resp.exists' then "Page exists: " ++ path else "Page not found: " ++ path⟩]⟩

/-- Embedding of pageExists, second generation in
src/src/tools/page-exists.ts (lines 179-210): the primary JSON is used
whenever its `exist` field is present, branching on the field's
truthiness. -/
def pageExistsExist (env : ExistsEnv) (params : PageBag) : ToolResponse :=
  match zodString params.path with
  | .error msg => ⟨false, [⟨"text", "Error checking page: " ++ msg⟩]⟩
  | .ok s =>
    let path := if startsWithSlash s then s else "/" ++ s
    let direct : Option ToolResponse :=
      if env.hasCreds then
        match env.primary with
        | .ok (some pl) =>
          match pl.existField with
          | some v =>
            some ⟨false, [⟨"text",
              if v.truthy then "Page exists: " ++ path else "Page not found: " ++ path⟩]⟩
          | none => none
        | _ => none
      else none
    match direct with
    | some r => r
    | none =>
      match env.fallback with
      | .error msg => ⟨false, [⟨"text", "Error checking page: " ++ msg⟩]⟩
      | .ok resp =>
        if !resp.ok then
          ⟨false, [⟨"text", "Error checking page: " ++ orDefault resp.error "Unknown error"⟩]⟩
        else
          ⟨false, [⟨"text",
            if resp.exists' then "Page exists: " ++ path else "Page not found: " ++ path⟩]⟩

end Growi

namespace Growi

theorem qadd_eq (a b : ℚ) : qadd a b = a + b := by
  conv_rhs => rw [← Rat.num_div_den a, ← Rat.num_div_den b]
  rw [div_add_div _ _ (by positivity : (a.den : ℚ) ≠ 0) (by positivity : (b.den : ℚ) ≠ 0)]
  unfold qadd
  rw [Rat.mkRat_eq_div]
  push_cast
  ring_nf

theorem qmul_eq (a b : ℚ) : qmul a b = a * b := by
  conv_rhs => rw [← Rat.num_div_den a, ← Rat.num_div_den b]
  rw [div_mul_div_comm]
  unfold qmul
  rw [Rat.mkRat_eq_div]
  push_cast
  ring_nf

theorem qneg_eq (a : ℚ) : qneg a = -a := by
  conv_rhs => rw [← Rat.num_div_den a]
  unfold qneg
  rw [Rat.mkRat_eq_div]
  push_cast
  rw [neg_div]

theorem qlt_iff (a b : ℚ) : (a.num * b.den < b.num * a.den) ↔ a < b := by
  constructor
  · intro h
    rw [← Rat.num_div_den a, ← Rat.num_div_den b,
      div_lt_div_iff₀ (by positivity) (by positivity)]
    exact_mod_cast h
  · intro h
    have := (div_lt_div_iff₀ (show (0 : ℚ) < a.den by positivity)
        (show (0 : ℚ) < b.den by positivity)).mp
      (by rw [Rat.num_div_den, Rat.num_div_den]; exact h)
    exact_mod_cast this

theorem qltb_eq (a b : ℚ) : qltb a b = decide (a < b) := by
  unfold qltb
  congr 1
  rw [eq_iff_iff]
  exact qlt_iff a b

theorem natQ_eq (n : ℕ) : natQ n = (n : ℚ) := by
  unfold natQ
  rw [Rat.mkRat_eq_div]
  simp

theorem jlt_num_num (a b : ℚ) : (JSNum.num a).jlt (.num b) = decide (a < b) := by
  simp [JSNum.jlt, qltb_eq]

theorem foldl_dash_lines (ps : List String) (a : String) :
    ps.foldl (fun acc p => acc ++ ("- " ++ p ++ "\n")) a = a ++ pageLines ps := by
  induction ps generalizing a with
  | nil => simp [pageLines, String.append_empty]
  | cons p r ih =>
    simp only [List.foldl_cons, pageLines]
    rw [ih, String.append_assoc]

theorem foldl_dash_lines_assoc (ps : List String) (a : String) :
    ps.foldl (fun acc p => acc ++ ("- " ++ (p ++ "\n"))) a = a ++ pageLines ps := by
  rw [show (fun (acc p : String) => acc ++ ("- " ++ (p ++ "\n"))) =
      (fun (acc p : String) => acc ++ ("- " ++ p ++ "\n")) from by
    funext acc p
    rw [String.append_assoc]]
  exact foldl_dash_lines ps a

/-- The limit coercion step shared by the analysis of normalizeParams:
whatever number comes in, the result is a rational between 1 and
1000. -/
theorem limitClamp_spec (x : JSNum) :
    ∃ q : ℚ, (if x.isNaN || x.jlt (.num 1) then JSNum.num 100
      else if (JSNum.num 1000).jlt x then JSNum.num 1000 else x) = .num q ∧
      1 ≤ q ∧ q ≤ 1000 := by
  rcases x with _ | _ | _ | q
  · exact ⟨100, rfl, by norm_num⟩
  · exact ⟨1000, rfl, by norm_num⟩
  · exact ⟨100, rfl, by norm_num⟩
  · rw [show (JSNum.num q).isNaN = false from rfl, jlt_num_num, jlt_num_num]
    simp only [Bool.false_or, decide_eq_true_eq]
    by_cases h1 : q < 1
    · rw [if_pos h1]
      exact ⟨100, rfl, by norm_num⟩
    · rw [if_neg h1]
      by_cases h2 : 1000 < q
      · rw [if_pos h2]
        exact ⟨1000, rfl, by norm_num⟩
      · rw [if_neg h2]
        exact ⟨q, rfl, by linarith, by linarith⟩

/-- The page coercion step: the result is either +Infinity or a rational
at least 1. -/
theorem pageClamp_spec (x : JSNum) :
    (if x.isNaN || x.jlt (.num 1) then JSNum.num 1 else x) = .inf ∨
      ∃ q : ℚ, (if x.isNaN || x.jlt (.num 1) then JSNum.num 1 else x) = .num q ∧ 1 ≤ q := by
  rcases x with _ | _ | _ | q
  · exact .inr ⟨1, rfl, by norm_num⟩
  · exact .inl rfl
  · exact .inr ⟨1, rfl, by norm_num⟩
  · rw [show (JSNum.num q).isNaN = false from rfl, jlt_num_num]
    simp only [Bool.false_or, decide_eq_true_eq]
    by_cases h1 : q < 1
    · rw [if_pos h1]
      exact .inr ⟨1, rfl, by norm_num⟩
    · rw [if_neg h1]
      exact .inr ⟨q, rfl, by linarith⟩

end Growi

/-- C1: for every argument bag accepted by the list-pages schema,
normalization produces a limit in the interval from 1 to 1000 and a page
at least 1 — but string values are converted with JavaScript `Number()`
whole-string semantics, not prefix-parsing: a numeric string within the
bounds is kept (fractional values included), a string whose conversion
is NaN (such as one with a non-numeric tail) is replaced by the default
100, and a value above 1000 is capped at 1000.  This is the claim as
amended: the original claim's prefix-parsing and always-an-integer parts
are refuted by `c1_counterexample`. -/
theorem c1_normalized_bounds (b : Option Growi.RawBag) (r : Growi.NormalizedParams)
    (h : Growi.normalizeParams b = .ok r) :
    (∃ q : ℚ, r.limit = .num q ∧ 1 ≤ q ∧ q ≤ 1000) ∧
    (r.page = .inf ∨ ∃ q : ℚ, r.page = .num q ∧ 1 ≤ q) ∧
    (∀ bag, b = some bag → ∀ s, bag.limit = some (.str s) →
      (Growi.strToNumber s).isNaN = true → r.limit = .num 100) ∧
    (∀ bag, b = some bag → ∀ s, bag.limit = some (.str s) → ∀ q : ℚ,
      Growi.strToNumber s = .num q → 1 ≤ q → q ≤ 1000 → r.limit = .num q) ∧
    (∀ bag, b = some bag → ∀ s, bag.limit = some (.str s) → ∀ q : ℚ,
      Growi.strToNumber s = .num q → 1000 < q → r.limit = .num 1000) := by
  match b with
  | none =>
    simp only [Growi.normalizeParams, Except.ok.injEq] at h
    subst h
    refine ⟨⟨100, rfl, by norm_num⟩, .inr ⟨1, rfl, le_refl 1⟩, ?_, ?_, ?_⟩ <;>
      (intro bag hb; cases hb)
  | some bag =>
    rcases bag with ⟨pv, lv, gv⟩
    rcases hp : Growi.zodStrOrNum pv with e | pp
    · simp only [Growi.normalizeParams, Growi.listPagesSchemaParse, hp] at h
      cases h
    rcases hl : Growi.zodStrOrNum lv with e | ll
    · simp only [Growi.normalizeParams, Growi.listPagesSchemaParse, hp, hl] at h
      cases h
    rcases hg : Growi.zodStrOrNum gv with e | gg
    · simp only [Growi.normalizeParams, Growi.listPagesSchemaParse, hp, hl, hg] at h
      cases h
    simp only [Growi.normalizeParams, Growi.listPagesSchemaParse, hp, hl, hg,
      Except.ok.injEq] at h
    subst h
    refine ⟨Growi.limitClamp_spec _, Growi.pageClamp_spec _, ?_, ?_, ?_⟩
    · intro bag hb s hs hnan
      injection hb with hb
      subst hb
      simp only at hs
      subst hs
      simp only [Growi.zodStrOrNum, Except.ok.injEq] at hl
      subst hl
      simp only [Growi.jsToNumber, hnan]
      simp [hnan]
    · intro bag hb s hs q hq h1 h2
      injection hb with hb
      subst hb
      simp only at hs
      subst hs
      simp only [Growi.zodStrOrNum, Except.ok.injEq] at hl
      subst hl
      simp only [Growi.jsToNumber, hq, Growi.jlt_num_num,
        show (Growi.JSNum.num q).isNaN = false from rfl]
      rw [if_neg, if_neg]
      · simp only [decide_eq_true_eq]
        linarith
      · simp only [Bool.or_eq_true, decide_eq_true_eq]
        rintro (hc | hc)
        · cases hc
        · linarith
    · intro bag hb s hs q hq h2
      injection hb with hb
      subst hb
      simp only at hs
      subst hs
      simp only [Growi.zodStrOrNum, Except.ok.injEq] at hl
      subst hl
      simp only [Growi.jsToNumber, hq, Growi.jlt_num_num,
        show (Growi.JSNum.num q).isNaN = false from rfl]
      rw [if_neg, if_pos]
      · simp only [decide_eq_true_eq]
        linarith
      · simp only [Bool.or_eq_true, decide_eq_true_eq]
        rintro (hc | hc)
        · cases hc
        · linarith

/-- C1 counterexample: the claim says a string with a non-integer tail
yields its integer prefix ("5x" would give 5) and that the normalized
limit is always an integer; the code uses `Number(...)`, so "5x"
converts to NaN and is replaced by the default 100, and "5.5" is kept as
the non-integer 11/2. -/
theorem c1_counterexample :
    Growi.strToNumber "5x" = .nan ∧
    Growi.normalizeParams (some ⟨none, some (.str "5x"), none⟩) =
      .ok ⟨"/", .num 100, .num 1⟩ ∧
    (100 : ℚ) ≠ 5 ∧
    Growi.normalizeParams (some ⟨none, some (.str "5.5"), none⟩) =
      .ok ⟨"/", .num (mkRat 11 2), .num 1⟩ ∧
    (mkRat 11 2).den ≠ 1 := by
  refine ⟨by decide, by decide, by norm_num, by decide, by decide⟩

/-- C1 witness: the general theorem applied to the concrete bag with
limit "2000" (a string, capped at 1000) and page 3. -/
theorem c1_witness :
    (∃ q : ℚ, (Growi.NormalizedParams.mk "/" (.num 1000) (.num 3)).limit = .num q ∧
      1 ≤ q ∧ q ≤ 1000) ∧
    ((Growi.NormalizedParams.mk "/" (.num 1000) (.num 3)).page = .inf ∨
      ∃ q : ℚ, (Growi.NormalizedParams.mk "/" (.num 1000) (.num 3)).page = .num q ∧ 1 ≤ q) ∧
    (∀ bag, (some ⟨none, some (.str "2000"), some (.num (.num 3))⟩ : Option Growi.RawBag) =
        some bag → ∀ s, bag.limit = some (.str s) →
      (Growi.strToNumber s).isNaN = true →
      (Growi.NormalizedParams.mk "/" (.num 1000) (.num 3)).limit = .num 100) ∧
    (∀ bag, (some ⟨none, some (.str "2000"), some (.num (.num 3))⟩ : Option Growi.RawBag) =
        some bag → ∀ s, bag.limit = some (.str s) → ∀ q : ℚ,
      Growi.strToNumber s = .num q → 1 ≤ q → q ≤ 1000 →
      (Growi.NormalizedParams.mk "/" (.num 1000) (.num 3)).limit = .num q) ∧
    (∀ bag, (some ⟨none, some (.str "2000"), some (.num (.num 3))⟩ : Option Growi.RawBag) =
        some bag → ∀ s, bag.limit = some (.str s) → ∀ q : ℚ,
      Growi.strToNumber s = .num q → 1000 < q →
      (Growi.NormalizedParams.mk "/" (.num 1000) (.num 3)).limit = .num 1000) :=
  c1_normalized_bounds (some ⟨none, some (.str "2000"), some (.num (.num 3))⟩)
    ⟨"/", .num 1000, .num 3⟩ (by decide)

/-- C2 counterexample: the tool catalog registers exactly two tools
(list pages and recently updated pages), not five; the get-page name is
not in the catalog and dispatching it returns the unknown-tool error
envelope. -/
theorem c2_counterexample :
    Growi.listToolsResult.map Growi.ToolDef.name =
      ["mcp_growi_growi_list_pages", "mcp_growi_growi_recently_updated_pages"] ∧
    Growi.listToolsResult.length ≠ 5 ∧
    Growi.callToolDispatch "mcp_growi_growi_get_page" =
      .unknownTool "mcp_growi_growi_get_page" ∧
    Growi.unknownToolResponse "mcp_growi_growi_get_page" =
      ⟨true, [⟨"text", "Unknown tool: mcp_growi_growi_get_page"⟩]⟩ :=
  ⟨by decide, by decide, by decide, by decide⟩

/-- C2 amended: the catalog lists exactly the two registered tools,
those two names dispatch to the list-pages and recently-updated-pages
implementations, and every other name — the get page, search pages and
page exists tools included, which are implemented but never registered —
receives the "Unknown tool" error envelope with isError true. -/
theorem c2_catalog_dispatch (n : String)
    (h1 : n ≠ "mcp_growi_growi_list_pages")
    (h2 : n ≠ "mcp_growi_growi_recently_updated_pages") :
    Growi.listToolsResult.map Growi.ToolDef.name =
      ["mcp_growi_growi_list_pages", "mcp_growi_growi_recently_updated_pages"] ∧
    Growi.callToolDispatch "mcp_growi_growi_list_pages" = .listPagesTool ∧
    Growi.callToolDispatch "mcp_growi_growi_recently_updated_pages" = .recentlyUpdatedTool ∧
    Growi.callToolDispatch n = .unknownTool n ∧
    Growi.unknownToolResponse n = ⟨true, [⟨"text", "Unknown tool: " ++ n⟩]⟩ := by
  refine ⟨by decide, by decide, by decide, ?_, rfl⟩
  unfold Growi.callToolDispatch
  rw [if_neg h1, if_neg h2]

/-- C2 witness: the amended theorem applied to the search-pages tool
name. -/
theorem c2_witness :
    Growi.listToolsResult.map Growi.ToolDef.name =
      ["mcp_growi_growi_list_pages", "mcp_growi_growi_recently_updated_pages"] ∧
    Growi.callToolDispatch "mcp_growi_growi_list_pages" = .listPagesTool ∧
    Growi.callToolDispatch "mcp_growi_growi_recently_updated_pages" = .recentlyUpdatedTool ∧
    Growi.callToolDispatch "mcp_growi_growi_search_pages" =
      .unknownTool "mcp_growi_growi_search_pages" ∧
    Growi.unknownToolResponse "mcp_growi_growi_search_pages" =
      ⟨true, [⟨"text", "Unknown tool: " ++ "mcp_growi_growi_search_pages"⟩]⟩ :=
  c2_catalog_dispatch "mcp_growi_growi_search_pages" (by decide) (by decide)

/-- C3 counterexample: the claim says isError is true exactly on
transport, validation and unknown-tool failures; but a schema validation
failure inside listPages (here: a boolean limit) is caught by the tool's
own catch-all, which returns a content-only envelope whose isError flag
is false (absent in the TypeScript value), refuting the "validation
implies isError=true" direction. -/
theorem c3_counterexample :
    Growi.listPages ⟨false, .error "net down", .error "net down"⟩
      (some ⟨none, some (.bool true), none⟩) =
      ⟨false, [⟨"text", "Error listing pages: " ++ Growi.zodErrorMessage⟩]⟩ := by decide

/-- C3 amended: remote logical errors surface as isError=false envelopes
with an in-band "Error ..." sentence — for list pages with remote
result ok:false/"server error" at path "/err", limit 5, page 1 the text
is exactly "Error listing pages (path: /err, offset: 0): server error"
and the flag is false; the unknown-tool envelope and the dispatcher
catch-all envelope are the isError=true cases; and the tool function
itself never sets isError, so validation and transport failures that are
caught inside it also surface with isError=false. -/
theorem c3_error_envelopes :
    Growi.listPages ⟨false, .error "x", .ok ⟨false, some [], none, some "server error"⟩⟩
      (some ⟨some (.str "/err"), some (.num (.num 5)), some (.num (.num 1))⟩) =
      ⟨false, [⟨"text", "Error listing pages (path: /err, offset: 0): server error"⟩]⟩ ∧
    (∀ n, (Growi.unknownToolResponse n).isError = true) ∧
    (∀ m, (Growi.dispatcherCatchResponse m).isError = true) ∧
    (∀ env params, (Growi.listPages env params).isError = false) := by
  refine ⟨by decide, fun n => rfl, fun m => rfl, ?_⟩
  intro env params
  unfold Growi.listPages
  split
  · rfl
  · dsimp only
    split
    · rename_i r hr
      split at hr
      · split at hr
        · cases hr
          rfl
        · cases hr
      · cases hr
    · split
      · rfl
      · split
        · rfl
        · rfl

namespace Growi

theorem searchPagesFallback_trace (env : SearchEnv) (q : String) (l o : JSNum)
    (calls : List SearchCall) :
    (searchPagesFallback env q l o calls).2 = calls ++ [SearchCall.fallback q l o] := by
  unfold searchPagesFallback
  split
  · rfl
  · split
    · rfl
    · split
      · rfl
      · rfl

end Growi

/-- C4 counterexample: a bag whose query is the empty string passes the
`z.string()` schema check, normalization completes, and a search request
is attempted with q equal to the empty string, so an empty query does
reach the network. -/
theorem c4_counterexample :
    Growi.searchPages ⟨true, .ok (some ⟨[]⟩), .error "x"⟩ ⟨some (.str ""), none, none⟩ =
      (⟨false, [⟨"text", "Found 0 pages for query: \n\n"⟩]⟩,
        [.primary "" (.num 20) (.num 0)]) := by decide

/-- C4 amended: a bag whose query field is absent or not a string fails
the strict schema check before normalization completes and before any
network operation — the surfaced envelope is the validation error and
the trace of attempted network calls is empty; but any string query, the
empty string included, passes validation, and with credentials present a
search request is attempted. -/
theorem c4_query_validation :
    (∀ env bag, (∀ s, bag.query ≠ some (.str s)) →
      Growi.searchPages env bag =
        (⟨false, [⟨"text", "Error searching pages: " ++ Growi.zodErrorMessage⟩]⟩, [])) ∧
    (∀ env q, env.hasCreds = true →
      (Growi.searchPages env ⟨some (.str q), none, none⟩).2 ≠ []) := by
  constructor
  · intro env bag hq
    have hqe : Growi.zodString bag.query = .error Growi.zodErrorMessage := by
      rcases hv : bag.query with _ | v
      · rfl
      · rcases v with s | n | b
        · exact absurd hv (hq s)
        · rfl
        · rfl
    unfold Growi.searchPages Growi.searchPagesSchemaParse
    rw [hqe]
  · intro env q hc
    unfold Growi.searchPages
    rw [show Growi.searchPagesSchemaParse ⟨some (.str q), none, none⟩ =
      .ok ⟨q, none, none⟩ from rfl]
    dsimp only
    rw [if_pos hc]
    rcases hp : env.primary with e | op
    · simp [Growi.searchPagesFallback_trace]
    · rcases op with _ | payload
      · simp [Growi.searchPagesFallback_trace]
      · simp

/-- C4 witness: the amended theorem applied to a bag with a boolean
query (rejected without any network call) and to a bag with the string
query "q" (a request is attempted). -/
theorem c4_witness :
    Growi.searchPages ⟨true, .ok (some ⟨[]⟩), .error "x"⟩ ⟨some (.bool true), none, none⟩ =
      (⟨false, [⟨"text", "Error searching pages: " ++ Growi.zodErrorMessage⟩]⟩, []) ∧
    (Growi.searchPages ⟨true, .ok (some ⟨[]⟩), .error "x"⟩ ⟨some (.str "q"), none, none⟩).2 ≠ [] :=
  ⟨c4_query_validation.1 ⟨true, .ok (some ⟨[]⟩), .error "x"⟩ ⟨some (.bool true), none, none⟩
      (fun s h => by simp at h),
    c4_query_validation.2 ⟨true, .ok (some ⟨[]⟩), .error "x"⟩ "q" rfl⟩

/-- C5: if the primary transport path of listPages raises — either the
missing-credentials throw before the request or a network/HTTP/JSON
failure — and the fallback path then succeeds with a payload carrying
the same page list and the same total, the tool's output equals what a
run whose primary path succeeded with that payload produces. -/
theorem c5_fallback_equivalence (bag : Option Growi.RawBag) (ps : List String)
    (t : Option Growi.JSNum) (fbA : Except String Growi.GrowiPagesResponse)
    (cB : Bool) (pB : Except String (Option Growi.PagesPayload))
    (hB : cB = false ∨ ∃ e, pB = .error e) :
    Growi.listPages ⟨true, .ok (some ⟨ps, t⟩), fbA⟩ bag =
      Growi.listPages ⟨cB, pB, .ok ⟨true, some ps, t.map (fun n => ⟨n⟩), none⟩⟩ bag := by
  rcases hB with hB | ⟨e, hB⟩
  · subst hB
    rcases t with _ | n <;> unfold Growi.listPages <;>
      rcases hn : Growi.normalizeParams bag with e' | np <;> rfl
  · subst hB
    cases cB <;> rcases t with _ | n <;> unfold Growi.listPages <;>
      rcases hn : Growi.normalizeParams bag with e' | np <;> rfl

/-- C5 witness: the equivalence applied to a concrete bag, a one-page
payload with total 1, and a primary path that throws "boom". -/
theorem c5_witness :
    Growi.listPages ⟨true, .ok (some ⟨["/a"], some (.num 1)⟩), .error "f"⟩
        (some ⟨some (.str "/x"), none, none⟩) =
      Growi.listPages ⟨true, .error "boom",
          .ok ⟨true, some ["/a"], some ⟨Growi.JSNum.num 1⟩, none⟩⟩
        (some ⟨some (.str "/x"), none, none⟩) :=
  c5_fallback_equivalence (some ⟨some (.str "/x"), none, none⟩) ["/a"]
    (some (.num 1)) (.error "f") true (.error "boom") (.inr ⟨"boom", rfl⟩)

/-- C6: for every list-pages invocation whose primary payload carries at
least one page path and a numeric totalCount at least the number of
results, the formatted text is the count header, one "- {path}" line per
result in API order, and the trailing pagination line built from
start = (page-1)*limit+1 and end = min(start+N-1, totalCount). -/
theorem c6_pagination (bag : Option Growi.RawBag) (path : String)
    (limit page : Growi.JSNum) (p0 : String) (rest : List String) (tq : ℚ)
    (fb : Except String Growi.GrowiPagesResponse)
    (hn : Growi.normalizeParams bag = .ok ⟨path, limit, page⟩)
    (_ht : ((p0 :: rest).length : ℚ) ≤ tq) :
    Growi.listPages ⟨true, .ok (some ⟨p0 :: rest, some (.num tq)⟩), fb⟩ bag =
      ⟨false, [⟨"text",
        "Found " ++ toString (p0 :: rest).length ++ " pages under path: " ++ path ++
          "\n\n" ++ Growi.pageLines (p0 :: rest) ++
          "\nShowing " ++ (((page.sub (.num 1)).mul limit).add (.num 1)).render ++ "-" ++
          (Growi.JSNum.jmin
            (((((page.sub (.num 1)).mul limit).add (.num 1)).add
              (.num (Growi.natQ (p0 :: rest).length))).sub (.num 1))
            (.num tq)).render ++
          " of " ++ (Growi.JSNum.num tq).render ++ " total pages"⟩]⟩ := by
  unfold Growi.listPages
  rw [hn]
  unfold Growi.formatResultText
  simp [Growi.foldl_dash_lines, Growi.foldl_dash_lines_assoc, Growi.pageLines,
    String.append_assoc]

/-- C6 witness: the pagination theorem at the claim's example — path
"foo", limit "5", page "1", two results /foo and /bar, total 2 — plus
the fully evaluated text of that run. -/
theorem c6_witness :
    (Growi.listPages ⟨true, .ok (some ⟨["/foo", "/bar"], some (.num 2)⟩), .error "f"⟩
        (some ⟨some (.str "foo"), some (.str "5"), some (.str "1")⟩) =
      ⟨false, [⟨"text",
        "Found " ++ toString (["/foo", "/bar"] : List String).length ++
          " pages under path: " ++ "/foo" ++
          "\n\n" ++ Growi.pageLines ["/foo", "/bar"] ++
          "\nShowing " ++
          ((((Growi.JSNum.num 1).sub (.num 1)).mul (.num 5)).add (.num 1)).render ++ "-" ++
          (Growi.JSNum.jmin
            ((((((Growi.JSNum.num 1).sub (.num 1)).mul (.num 5)).add (.num 1)).add
              (.num (Growi.natQ (["/foo", "/bar"] : List String).length))).sub (.num 1))
            (.num 2)).render ++
          " of " ++ (Growi.JSNum.num 2).render ++ " total pages"⟩]⟩) ∧
    Growi.listPages ⟨true, .ok (some ⟨["/foo", "/bar"], some (.num 2)⟩), .error "f"⟩
        (some ⟨some (.str "foo"), some (.str "5"), some (.str "1")⟩) =
      ⟨false, [⟨"text",
        "Found 2 pages under path: /foo\n\n- /foo\n- /bar\n\nShowing 1-2 of 2 total pages"⟩]⟩ :=
  ⟨c6_pagination (some ⟨some (.str "foo"), some (.str "5"), some (.str "1")⟩) "/foo"
      (.num 5) (.num 1) "/foo" ["/bar"] 2 (.error "f") (by decide) (by norm_num),
    by decide⟩

/-- C7 counterexample: the claim says every list-style operation maps an
empty result set to a fixed "no results" sentence naming the query
parameter; searchPages has no such branch — an empty result set yields
the zero-count header "Found 0 pages for query: {query}", which is not a
no-results sentence (in this codebase those start with "No"). -/
theorem c7_counterexample :
    (Growi.searchPages ⟨true, .ok (some ⟨[]⟩), .error "x"⟩
        ⟨some (.str "test"), none, none⟩).1 =
      ⟨false, [⟨"text", "Found 0 pages for query: test\n\n"⟩]⟩ ∧
    "Found 0 pages for query: test\n\n" ≠ "No pages found for query: test" ∧
    (∀ s : String, "Found 0 pages for query: test\n\n" ≠ "No " ++ s) := by
  refine ⟨by decide, by decide, ?_⟩
  intro s h
  have h2 := congrArg (fun t : String => t.data) h
  simp only [String.data_append] at h2
  cases h2

/-- C7 amended: list pages and recently updated pages map an empty
result set to their fixed no-results sentences ("No pages found under
path: {path}" and "No recently updated pages found") with no pagination
line appended, in both the primary and the fallback branch; searchPages
instead emits the zero-count header "Found 0 pages for query: {query}"
with no item lines and never any pagination line. -/
theorem c7_no_results :
    (∀ path total limit page,
      Growi.formatResultText path none total limit page =
        "No pages found under path: " ++ path) ∧
    (∀ path total limit page,
      Growi.formatResultText path (some []) total limit page =
        "No pages found under path: " ++ path) ∧
    (∀ (bag : Option Growi.RecentBag) tc fb,
      Growi.recentlyUpdatedPages ⟨true, .ok (some ⟨[], tc⟩), fb⟩ bag =
        ⟨false, [⟨"text", "No recently updated pages found"⟩]⟩) ∧
    (∀ (bag : Option Growi.RecentBag) pB meta,
      Growi.recentlyUpdatedPages ⟨false, pB, .ok ⟨true, some [], meta, none⟩⟩ bag =
        ⟨false, [⟨"text", "No recently updated pages found"⟩]⟩) ∧
    (∀ q fb,
      (Growi.searchPages ⟨true, .ok (some ⟨[]⟩), fb⟩ ⟨some (.str q), none, none⟩).1 =
        ⟨false, [⟨"text", "Found 0 pages for query: " ++ q ++ "\n\n"⟩]⟩) ∧
    (∀ q pB,
      (Growi.searchPages ⟨false, pB, .ok ⟨true, some [], none⟩⟩
          ⟨some (.str q), none, none⟩).1 =
        ⟨false, [⟨"text", "Found 0 pages for query: " ++ q ++ "\n\n"⟩]⟩) := by
  refine ⟨fun path total limit page => rfl, fun path total limit page => rfl,
    fun bag tc fb => rfl, fun bag pB meta => rfl, fun q fb => rfl, fun q pB => rfl⟩

namespace Growi

theorem pageText_body (p b : String) :
    pageText ⟨p, some b⟩ = "Page: " ++ p ++ "\n\n" ++ b := by
  show (if b = "" then "Page: " ++ p ++ "\n\n"
    else "Page: " ++ p ++ "\n\n" ++ b) = "Page: " ++ p ++ "\n\n" ++ b
  by_cases hb : b = ""
  · rw [if_pos hb, hb, String.append_empty]
  · rw [if_neg hb]

end Growi

/-- C8: every successful get-page result — through the primary branch or
through an ok fallback after a failed primary — with page path p and
body b formats as "Page: {p}", a blank line, then b verbatim with no
truncation: the output text contains b and is strictly longer than
b. -/
theorem c8_no_truncation (env : Growi.GetPageEnv) (bag : Growi.PageBag)
    (s p b : String) (hbag : bag.path = some (.str s))
    (h : (env.hasCreds = true ∧ env.primary = .ok (some ⟨p, some b⟩)) ∨
      ((env.hasCreds = false ∨ env.primary = .ok none ∨ ∃ e, env.primary = .error e) ∧
        env.fallback = .ok ⟨true, some ⟨p, some b⟩, none⟩)) :
    Growi.getPage env bag = ⟨false, [⟨"text", "Page: " ++ p ++ "\n\n" ++ b⟩]⟩ ∧
    (∃ pre post, "Page: " ++ p ++ "\n\n" ++ b = pre ++ b ++ post) ∧
    b.length < ("Page: " ++ p ++ "\n\n" ++ b).length := by
  refine ⟨?_, ⟨"Page: " ++ p ++ "\n\n", "", by rw [String.append_empty]⟩, ?_⟩
  · have hmain : Growi.getPage env bag = ⟨false, [⟨"text", Growi.pageText ⟨p, some b⟩⟩]⟩ := by
      unfold Growi.getPage
      rw [show Growi.zodString bag.path = .ok s from by rw [hbag]; rfl]
      rcases h with ⟨hc, hp⟩ | ⟨hfail, hf⟩
      · rw [hc, hp]
        rfl
      · rcases hfail with hc | hp | ⟨e, hp⟩
        · rw [hc, hf]
          rfl
        · rw [hp, hf]
          cases env.hasCreds <;> rfl
        · rw [hp, hf]
          cases env.hasCreds <;> rfl
    rw [hmain, Growi.pageText_body]
  · have h6 : ("Page: " : String).length = 6 := rfl
    have h2 : ("\n\n" : String).length = 2 := rfl
    simp only [String.length_append, h6, h2]
    omega

/-- C8 witness: the theorem at a body of length exactly 300 through the
primary branch. -/
theorem c8_witness :
    Growi.getPage
        ⟨true, .ok (some ⟨"/long", some (String.mk (List.replicate 300 'a'))⟩), .error "f"⟩
        ⟨some (.str "/long")⟩ =
      ⟨false, [⟨"text",
        "Page: " ++ "/long" ++ "\n\n" ++ String.mk (List.replicate 300 'a')⟩]⟩ ∧
    (∃ pre post, "Page: " ++ "/long" ++ "\n\n" ++ String.mk (List.replicate 300 'a') =
      pre ++ String.mk (List.replicate 300 'a') ++ post) ∧
    (String.mk (List.replicate 300 'a')).length <
      ("Page: " ++ "/long" ++ "\n\n" ++ String.mk (List.replicate 300 'a')).length :=
  c8_no_truncation
    ⟨true, .ok (some ⟨"/long", some (String.mk (List.replicate 300 'a'))⟩), .error "f"⟩
    ⟨some (.str "/long")⟩ "/long" "/long" (String.mk (List.replicate 300 'a'))
    rfl (.inl ⟨rfl, rfl⟩)

/-- C9: for both generations of pageExists, every success output —
primary-decided or fallback-decided — is exactly "Page exists: {path}"
or exactly "Page not found: {path}" with the slash-normalized path; in
particular, with the remote answering a payload whose `exist` field is
true for path "/foo", the exist-generation returns exactly
"Page exists: /foo". -/
theorem c9_exists_text :
    (∀ env bag s pl b, bag.path = some (.str s) → env.hasCreds = true →
      env.primary = .ok (some pl) → pl.okField = some (.bool b) →
      Growi.pageExists env bag = ⟨false, [⟨"text",
        if b then "Page exists: " ++ (if Growi.startsWithSlash s then s else "/" ++ s)
        else "Page not found: " ++ (if Growi.startsWithSlash s then s else "/" ++ s)⟩]⟩) ∧
    (∀ env bag s ex er, bag.path = some (.str s) → env.hasCreds = false →
      env.fallback = .ok ⟨true, ex, er⟩ →
      Growi.pageExists env bag = ⟨false, [⟨"text",
        if ex then "Page exists: " ++ (if Growi.startsWithSlash s then s else "/" ++ s)
        else "Page not found: " ++ (if Growi.startsWithSlash s then s else "/" ++ s)⟩]⟩) ∧
    (∀ env bag s pl v, bag.path = some (.str s) → env.hasCreds = true →
      env.primary = .ok (some pl) → pl.existField = some v →
      Growi.pageExistsExist env bag = ⟨false, [⟨"text",
        if v.truthy then "Page exists: " ++ (if Growi.startsWithSlash s then s else "/" ++ s)
        else "Page not found: " ++ (if Growi.startsWithSlash s then s else "/" ++ s)⟩]⟩) ∧
    (∀ env bag s ex er, bag.path = some (.str s) → env.hasCreds = false →
      env.fallback = .ok ⟨true, ex, er⟩ →
      Growi.pageExistsExist env bag = ⟨false, [⟨"text",
        if ex then "Page exists: " ++ (if Growi.startsWithSlash s then s else "/" ++ s)
        else "Page not found: " ++ (if Growi.startsWithSlash s then s else "/" ++ s)⟩]⟩) ∧
    (∀ fb, Growi.pageExistsExist ⟨true, .ok (some ⟨none, some (.bool true)⟩), fb⟩
      ⟨some (.str "/foo")⟩ = ⟨false, [⟨"text", "Page exists: /foo"⟩]⟩) := by
  refine ⟨?_, ?_, ?_, ?_, fun fb => rfl⟩
  · intro env bag s pl b hbag hc hp hok
    rcases pl with ⟨okF, exF⟩
    simp only at hok
    subst hok
    unfold Growi.pageExists
    rw [show Growi.zodString bag.path = .ok s from by rw [hbag]; rfl, hc, hp]
    cases b <;> rfl
  · intro env bag s ex er hbag hc hf
    unfold Growi.pageExists
    rw [show Growi.zodString bag.path = .ok s from by rw [hbag]; rfl, hc, hf]
    cases ex <;> rfl
  · intro env bag s pl v hbag hc hp hex
    rcases pl with ⟨okF, exF⟩
    simp only at hex
    subst hex
    unfold Growi.pageExistsExist
    rw [show Growi.zodString bag.path = .ok s from by rw [hbag]; rfl, hc, hp]
    cases hv : v.truthy <;> simp [hv]
  · intro env bag s ex er hbag hc hf
    unfold Growi.pageExistsExist
    rw [show Growi.zodString bag.path = .ok s from by rw [hbag]; rfl, hc, hf]
    cases ex <;> rfl

/-- C9 witness: each branch of the theorem at concrete inputs, with the
scenario instantiated at a throwing fallback. -/
theorem c9_witness :
    Growi.pageExists ⟨true, .ok (some ⟨some (.bool true), none⟩), .error "f"⟩
        ⟨some (.str "foo")⟩ =
      ⟨false, [⟨"text",
        if true then "Page exists: " ++
          (if Growi.startsWithSlash "foo" then "foo" else "/" ++ "foo")
        else "Page not found: " ++
          (if Growi.startsWithSlash "foo" then "foo" else "/" ++ "foo")⟩]⟩ ∧
    Growi.pageExistsExist ⟨true, .ok (some ⟨none, some (.bool true)⟩), .error "f"⟩
        ⟨some (.str "/foo")⟩ = ⟨false, [⟨"text", "Page exists: /foo"⟩]⟩ :=
  ⟨c9_exists_text.1 ⟨true, .ok (some ⟨some (.bool true), none⟩), .error "f"⟩
      ⟨some (.str "foo")⟩ "foo" ⟨some (.bool true), none⟩ true rfl rfl rfl rfl,
    (c9_exists_text.2.2.2.2) (.error "f")⟩

namespace Growi

theorem searchPagesFallback_content (env : SearchEnv) (q : String) (l o : JSNum)
    (calls : List SearchCall) :
    ∃ t, ((searchPagesFallback env q l o calls).1).content = [⟨"text", t⟩] := by
  unfold searchPagesFallback
  split
  · exact ⟨_, rfl⟩
  · split
    · exact ⟨_, rfl⟩
    · split
      · exact ⟨_, rfl⟩
      · exact ⟨_, rfl⟩

end Growi

/-- C10: for every argument bag and every behavior of the injected
client and of the primary HTTP path — thrown exceptions and ok:false
results included — each of the five tool functions returns (the
embeddings are total functions, mirroring the catch-alls that stop any
exception) an envelope whose content is exactly one block of the form
type "text" with a string text. -/
theorem c10_single_text_envelope :
    (∀ env params, ∃ t, (Growi.listPages env params).content = [⟨"text", t⟩]) ∧
    (∀ env bag, ∃ t, ((Growi.searchPages env bag).1).content = [⟨"text", t⟩]) ∧
    (∀ env params, ∃ t, (Growi.recentlyUpdatedPages env params).content = [⟨"text", t⟩]) ∧
    (∀ env bag, ∃ t, (Growi.getPage env bag).content = [⟨"text", t⟩]) ∧
    (∀ env bag, ∃ t, (Growi.pageExists env bag).content = [⟨"text", t⟩]) ∧
    (∀ env bag, ∃ t, (Growi.pageExistsExist env bag).content = [⟨"text", t⟩]) := by
  refine ⟨?_, ?_, ?_, ?_, ?_, ?_⟩
  · intro env params
    unfold Growi.listPages
    split
    · exact ⟨_, rfl⟩
    · dsimp only
      split
      · rename_i r hr
        split at hr
        · split at hr
          · cases hr
            exact ⟨_, rfl⟩
          · cases hr
        · cases hr
      · split
        · exact ⟨_, rfl⟩
        · split
          · exact ⟨_, rfl⟩
          · exact ⟨_, rfl⟩
  · intro env bag
    unfold Growi.searchPages
    split
    · exact ⟨_, rfl⟩
    · dsimp only
      split
      · split
        · exact ⟨_, rfl⟩
        · exact Growi.searchPagesFallback_content _ _ _ _ _
      · exact Growi.searchPagesFallback_content _ _ _ _ _
  · intro env params
    unfold Growi.recentlyUpdatedPages
    dsimp only
    split
    · rename_i r hr
      split at hr
      · split at hr
        · cases hr
          split
          · exact ⟨_, rfl⟩
          · exact ⟨_, rfl⟩
        · cases hr
      · cases hr
    · split
      · exact ⟨_, rfl⟩
      · split
        · exact ⟨_, rfl⟩
        · split
          · exact ⟨_, rfl⟩
          · split
            · exact ⟨_, rfl⟩
            · exact ⟨_, rfl⟩
  · intro env bag
    unfold Growi.getPage
    split
    · exact ⟨_, rfl⟩
    · dsimp only
      split
      · rename_i r hr
        split at hr
        · split at hr
          · cases hr
            exact ⟨_, rfl⟩
          · cases hr
        · cases hr
      · split
        · exact ⟨_, rfl⟩
        · split
          · exact ⟨_, rfl⟩
          · split
            · exact ⟨_, rfl⟩
            · exact ⟨_, rfl⟩
  · intro env bag
    unfold Growi.pageExists
    split
    · exact ⟨_, rfl⟩
    · dsimp only
      split
      · rename_i r hr
        split at hr
        · split at hr
          · split at hr
            · cases hr
              exact ⟨_, rfl⟩
            · cases hr
          · cases hr
        · cases hr
      · split
        · exact ⟨_, rfl⟩
        · split
          · exact ⟨_, rfl⟩
          · exact ⟨_, rfl⟩
  · intro env bag
    unfold Growi.pageExistsExist
    split
    · exact ⟨_, rfl⟩
    · dsimp only
      split
      · rename_i r hr
        split at hr
        · split at hr
          · split at hr
            · cases hr
              exact ⟨_, rfl⟩
            · cases hr
          · cases hr
        · cases hr
      · split
        · exact ⟨_, rfl⟩
        · split
          · exact ⟨_, rfl⟩
          · exact ⟨_, rfl⟩
